import Mathlib

/-!
Shallow embedding of the Amazonia-1 stactools module
(src/stactools/amazonia_1/stac.py) together with proofs about its
metadata-extraction and item-assembly pipeline.

Modelling conventions:
* XML documents are values of the inductive type XmlEl.  ElementTree
  operations (find, findall, text, attrib.get, element truthiness)
  become total functions on that type.  Namespace-qualified tags such
  as x:leftCamera are modelled by their local names, since the
  namespace map of the source is a fixed bijection.
* Python floats are modelled as exact rationals.  The source stores
  every numeric field as a string and re-parses it with float() at the
  point of use; since str and float round-trip exactly at the value
  level, numeric metadata fields are stored directly as rationals
  here, parsed once during extraction.  The only observable
  difference is the stage at which a malformed numeric field is
  detected (extraction here, assembly in CPython); no theorem below
  depends on that distinction, and both are fatal errors.
* Fallible code returns Except StacError.  An AttributeError raised by
  a missing element, a failed assert, a KeyError and a ValueError from
  float()/int() all become errors; the error constructor records which
  kind of failure occurred.
* re.match and re.sub are modelled by a fuel-based backtracking
  matcher specialised to the two concrete patterns of the source, with
  the same greedy, leftmost, prefix-matching semantics; character
  classes are restricted to ASCII, which covers every input the
  package is specified for.
-/

namespace A1

/- Rational arithmetic of the standard library is sealed for
elaboration performance; the theorems below evaluate concrete scenes
by kernel reduction, so the arithmetic is unsealed for this file.
This does not change any definition, only reducibility hints. -/
attribute [local semireducible] Rat.add Rat.mul Rat.inv Rat.sub

/-! ### Character classes and numeric parsing helpers -/

/-- ASCII approximation of the regex class backslash-w. -/
def wordChar (c : Char) : Bool := c.isAlphanum || c == '_'

/-- The regex class backslash-d. -/
def digitChar (c : Char) : Bool := c.isDigit

/-- ASCII approximation of the regex class of word characters other
than the underscore, written in the source as a negated class. -/
def alnumChar (c : Char) : Bool := c.isAlphanum

/-- Numeric value of a digit list, most significant digit first. -/
def digitsVal (l : List Char) : Nat :=
  l.foldl (fun a c => a * 10 + (c.toNat - 48)) 0

/-- Model of Python int() restricted to an optional minus sign followed
by decimal digits, which covers every call site of the source. -/
def parseInt (s : String) : Option Int :=
  match s.data with
  | [] => none
  | c :: rest =>
    if c = '-' then
      if !rest.isEmpty && rest.all Char.isDigit then
        some (-(digitsVal rest : Int))
      else none
    else
      if (c :: rest).all Char.isDigit then
        some ((digitsVal (c :: rest) : Int))
      else none

/-- Model of Python float() restricted to an optional minus sign, an
integer part and an optional fractional part, which covers every
numeric field of the metadata schema. -/
def parseDecimal (s : String) : Option ℚ :=
  match s.data with
  | [] => none
  | c0 :: rest0 =>
    let sgn := if c0 = '-' then true else false
    let l := if c0 = '-' then rest0 else c0 :: rest0
    let intPart := l.takeWhile Char.isDigit
    let tail := l.drop intPart.length
    if intPart.isEmpty then none
    else
      match tail with
      | [] =>
        let q : ℚ := (digitsVal intPart : ℚ)
        some (if sgn then -q else q)
      | d :: frac =>
        if d = '.' && !frac.isEmpty && frac.all Char.isDigit then
          let q : ℚ := (digitsVal intPart : ℚ) + (digitsVal frac : ℚ) / ((10 : ℚ) ^ frac.length)
          some (if sgn then -q else q)
        else none

/-- Pad a string with leading zeros up to the given width. -/
def zfill (w : Nat) (s : String) : String :=
  if s.length ≥ w then s else String.mk (List.replicate (w - s.length) '0') ++ s

/-- Model of the %03d format used for path and row numbers. -/
def pad3 (n : Int) : String :=
  if n < 0 then "-" ++ zfill 2 (toString n.natAbs) else zfill 3 (toString n.natAbs)

/-- Python str.split on a single-character separator; the source only
splits on the slash and the space.  An empty string yields one empty
component, as in Python. -/
def splitOnChar (sep : Char) : List Char → List (List Char)
  | [] => [[]]
  | c :: cs =>
      let r := splitOnChar sep cs
      if c = sep then [] :: r
      else
        match r with
        | [] => [[c]]
        | h :: t => (c :: h) :: t

/-- Python str.replace on a single-character pattern; the source only
replaces single characters (possibly with the empty string). -/
def replaceChar (c : Char) (r : List Char) : List Char → List Char
  | [] => []
  | x :: xs => if x = c then r ++ replaceChar c r xs else x :: replaceChar c r xs

/-- Python str.lower restricted to ASCII. -/
def lowerStr (s : String) : String := String.mk (s.data.map Char.toLower)

/-- Last slash-separated component of a path; models both
path.split with a slash and os.path.basename as used by the source. -/
def basename (s : String) : String :=
  String.mk ((splitOnChar '/' s.data).getLastD [])

/-! ### A small backtracking regex matcher

The source uses exactly two regular expressions: TIF_XML_REGEX, matched
with re.match against the basename, and the band-suffix pattern removed
with re.sub when building the download path.  Both are sequences of the
token forms below.  The matcher is fuel-based structural recursion so
that it evaluates by kernel reduction; the fuel chosen in runToks
dominates the depth of any backtracking path, because every step either
consumes a token or decrements a counter bounded by the input length. -/

inductive RTok : Type where
  | plus : (Char → Bool) → RTok
  | plusTry : (Char → Bool) → Nat → RTok
  | lit : List Char → RTok
  | exactly : Nat → (Char → Bool) → RTok
  | altsTry : List (List Char) → RTok
  | optTry : List (List Char) → RTok

/-- Length of the maximal prefix of l whose characters satisfy p. -/
def runLen (p : Char → Bool) (l : List Char) : Nat := (l.takeWhile p).length

/-- Backtracking matcher.  Returns the captured optional group (there
is at most one capturing optional group in the patterns of the source)
and the unconsumed remainder of the input.  Alternatives are tried
left to right and quantifiers greedily, longest first, exactly as in
the CPython engine; a match may leave trailing input unconsumed, which
is the re.match prefix semantics. -/
def matchToksF : Nat → List RTok → List Char → Option (Option String × List Char)
  | 0, _, _ => none
  | _ + 1, [], input => some (none, input)
  | f + 1, RTok.plus p :: ts, input =>
      matchToksF f (RTok.plusTry p (runLen p input) :: ts) input
  | _ + 1, RTok.plusTry _ 0 :: _, _ => none
  | f + 1, RTok.plusTry p (k + 1) :: ts, input =>
      match matchToksF f ts (input.drop (k + 1)) with
      | some r => some r
      | none => matchToksF f (RTok.plusTry p k :: ts) input
  | f + 1, RTok.lit s :: ts, input =>
      if s.isPrefixOf input then matchToksF f ts (input.drop s.length) else none
  | f + 1, RTok.exactly n p :: ts, input =>
      if ((input.take n).length == n) && (input.take n).all p then
        matchToksF f ts (input.drop n)
      else none
  | _ + 1, RTok.altsTry [] :: _, _ => none
  | f + 1, RTok.altsTry (s :: ss) :: ts, input =>
      if s.isPrefixOf input then
        match matchToksF f ts (input.drop s.length) with
        | some r => some r
        | none => matchToksF f (RTok.altsTry ss :: ts) input
      else matchToksF f (RTok.altsTry ss :: ts) input
  | f + 1, RTok.optTry [] :: ts, input => matchToksF f ts input
  | f + 1, RTok.optTry (s :: ss) :: ts, input =>
      if s.isPrefixOf input then
        match matchToksF f ts (input.drop s.length) with
        | some (_, rem) => some (some (String.mk s), rem)
        | none => matchToksF f (RTok.optTry ss :: ts) input
      else matchToksF f (RTok.optTry ss :: ts) input

/-- Run a token sequence with fuel that dominates every backtracking
path for the patterns of the source. -/
def runToks (toks : List RTok) (l : List Char) : Option (Option String × List Char) :=
  matchToksF ((toks.length + 1) * (l.length + 4)) toks l

/-- The TIF_XML_REGEX pattern of the source:
satellite, mission and camera words, an 8-digit date, 3-digit path and
row, an alphanumeric level, an optional captured LEFT or RIGHT optics
marker, a band number and a tif or xml extension. -/
def tifXmlToks : List RTok :=
  [RTok.plus wordChar, RTok.lit "_".data,
   RTok.plus wordChar, RTok.lit "_".data,
   RTok.plus wordChar, RTok.lit "_".data,
   RTok.exactly 8 digitChar, RTok.lit "_".data,
   RTok.exactly 3 digitChar, RTok.lit "_".data,
   RTok.exactly 3 digitChar, RTok.lit "_".data,
   RTok.plus alnumChar,
   RTok.optTry ["_LEFT".data, "_RIGHT".data],
   RTok.lit "_BAND".data,
   RTok.plus digitChar,
   RTok.lit ".".data,
   RTok.altsTry ["tif".data, "xml".data]]

/-- Model of TIF_XML_REGEX.match on a basename: none when the pattern
does not match a prefix, otherwise the captured optics group. -/
def tifXmlRun (s : String) : Option (Option String) :=
  (runToks tifXmlToks s.data).map Prod.fst

/-- The band-suffix pattern removed by re.sub when building the
download path: an optional LEFT or RIGHT marker, the literal BAND with
digits, any single character (the unescaped dot of the source) and the
literal xml. -/
def subBandToks : List RTok :=
  [RTok.optTry ["_LEFT".data, "_RIGHT".data],
   RTok.lit "_BAND".data,
   RTok.plus digitChar,
   RTok.exactly 1 (fun _ => true),
   RTok.lit "xml".data]

/-- Model of re.sub with the band-suffix pattern and empty replacement:
scan left to right, removing each non-overlapping match.  The pattern
cannot match the empty string, so the removal always consumes input;
the length guard only documents that. -/
def subAllF : Nat → List Char → List Char
  | 0, l => l
  | _ + 1, [] => []
  | f + 1, c :: cs =>
      match runToks subBandToks (c :: cs) with
      | some (_, rem) =>
          if rem.length < (c :: cs).length then subAllF f rem else c :: subAllF f cs
      | none => c :: subAllF f cs

/-- String-level wrapper for the re.sub model. -/
def subBandXml (s : String) : String := String.mk (subAllF s.data.length s.data)

/-- Remove every dot-digits run, the re.sub that strips sub-second
precision from the acquisition timestamp in create_item. -/
def stripFracF : Nat → List Char → List Char
  | 0, l => l
  | _ + 1, [] => []
  | f + 1, c :: cs =>
      if c = '.' then
        match cs with
        | d :: _ =>
            if d.isDigit then stripFracF f (cs.dropWhile Char.isDigit)
            else c :: stripFracF f cs
        | [] => [c]
      else c :: stripFracF f cs

/-- String-level wrapper for the fractional-seconds stripper. -/
def stripFraction (s : String) : String := String.mk (stripFracF s.data.length s.data)

/-- The UTC offset, in minutes, carried by an ISO-8601 string of the
form accepted by datetime.fromisoformat, or none for a naive string.
Validation of the date and time digits themselves is not modelled; no
property below depends on rejecting a malformed timestamp. -/
def isoOffset (s : String) : Option Int :=
  let l := s.data
  let n := l.length
  if n ≥ 6 then
    match l.drop (n - 6) with
    | [sg, h1, h2, co, m1, m2] =>
      if (sg == '+' || sg == '-') && h1.isDigit && h2.isDigit && (co == ':')
          && m1.isDigit && m2.isDigit then
        let mins : Int :=
          ((h1.toNat - 48) * 10 + (h2.toNat - 48)) * 60 + ((m1.toNat - 48) * 10 + (m2.toNat - 48))
        some (if sg == '-' then -mins else mins)
      else none
    | _ => none
  else none

/-! ### The XML document model -/

/-- An XML element: tag, text content (empty when the element has
none), attributes and child elements. -/
inductive XmlEl : Type where
  | node : String → String → List (String × String) → List XmlEl → XmlEl

def XmlEl.tag : XmlEl → String
  | .node t _ _ _ => t

def XmlEl.text : XmlEl → String
  | .node _ x _ _ => x

def XmlEl.attrs : XmlEl → List (String × String)
  | .node _ _ a _ => a

def XmlEl.children : XmlEl → List XmlEl
  | .node _ _ _ c => c

/-- Element.find: the first direct child with the given tag. -/
def xfind (e : XmlEl) (t : String) : Option XmlEl :=
  e.children.find? (fun c => c.tag == t)

/-- Repeated find along a tag path. -/
def pathFind (e : XmlEl) : List String → Option XmlEl
  | [] => some e
  | t :: ts =>
      match xfind e t with
      | some c => pathFind c ts
      | none => none

/-- Text of the element at a tag path. -/
def pathText (e : XmlEl) (p : List String) : Option String :=
  (pathFind e p).map XmlEl.text

/-- Numeric value of the element at a tag path. -/
def pathRat (e : XmlEl) (p : List String) : Option ℚ :=
  (pathFind e p).bind (fun c => parseDecimal c.text)

/-- Python truthiness of the optional leftCamera lookup, as tested by
the source twice: None is falsy, and an ElementTree element is falsy
exactly when it has no child elements. -/
def dualActive (doc : XmlEl) : Bool :=
  match xfind doc "leftCamera" with
  | some l => !l.children.isEmpty
  | none => false

/-! ### Errors and the Except lift -/

/-- Fatal failures of the pipeline: the assert on the filename
pattern, a missing element or dictionary key, and a numeric-conversion
failure. -/
inductive StacError : Type where
  | badFilename : StacError
  | missingField : String → StacError
  | badNumber : String → StacError
deriving DecidableEq

/-- Turn an optional lookup into the fatal error the source raises. -/
def liftO {α : Type} : Option α → StacError → Except StacError α
  | some a, _ => Except.ok a
  | none, e => Except.error e

/-! ### Static mission and camera tables

CBERS_AM_MISSIONS and BASE_CAMERA of the source, restricted to the
fields consumed by the item pipeline and by the properties proved
below: intervals, quicklook formats, instruments, the per-band common
names with optional ground-sample-distance overrides, international
designators, meta-band numbers, summary ground-sample distances and
provider names.  The provider role, description and url strings and
the per-band item_assets templates of the collection boilerplate are
static data never read by create_item and are not reproduced. -/

structure BandInfo : Type where
  common_name : String
  gsd : Option ℚ := none

structure MissionInfo : Type where
  interval_start : String
  quicklook_extension : String
  quicklook_type : String
  instruments : List String
  band : List (String × BandInfo)
  international_designator : String
  meta_band : List (String × Nat)
  provider_names : List String

def CBERS_AM_MISSIONS : List (String × MissionInfo) :=
  [("CBERS-4",
    { interval_start := "2014-12-08T00:00:00Z"
      quicklook_extension := "jpg"
      quicklook_type := "jpeg"
      instruments := ["MUX", "AWFI", "PAN5M", "PAN10M"]
      band := [("B1", { common_name := "pan" }), ("B2", { common_name := "green" }),
               ("B3", { common_name := "red" }), ("B4", { common_name := "nir" }),
               ("B5", { common_name := "blue" }), ("B6", { common_name := "green" }),
               ("B7", { common_name := "red" }), ("B8", { common_name := "nir" }),
               ("B13", { common_name := "blue" }), ("B14", { common_name := "green" }),
               ("B15", { common_name := "red" }), ("B16", { common_name := "nir" })]
      international_designator := "2014-079A"
      meta_band := [("MUX", 6), ("AWFI", 14), ("PAN5M", 1), ("PAN10M", 4)]
      provider_names := ["Instituto Nacional de Pesquisas Espaciais, INPE",
                         "AMS Kepler", "Amazon Web Services"] }),
   ("CBERS-4A",
    { interval_start := "2019-12-20T00:00:00Z"
      quicklook_extension := "png"
      quicklook_type := "png"
      instruments := ["WPM", "MUX", "WFI"]
      band := [("B0", { common_name := "pan" }),
               ("B1", { common_name := "blue", gsd := some 8 }),
               ("B2", { common_name := "green", gsd := some 8 }),
               ("B3", { common_name := "red", gsd := some 8 }),
               ("B4", { common_name := "nir", gsd := some 8 }),
               ("B5", { common_name := "blue" }), ("B6", { common_name := "green" }),
               ("B7", { common_name := "red" }), ("B8", { common_name := "nir" }),
               ("B13", { common_name := "blue" }), ("B14", { common_name := "green" }),
               ("B15", { common_name := "red" }), ("B16", { common_name := "nir" })]
      international_designator := "2019-093E"
      meta_band := [("WPM", 2), ("MUX", 6), ("WFI", 14)]
      provider_names := ["Instituto Nacional de Pesquisas Espaciais, INPE",
                         "AMS Kepler", "Amazon Web Services"] }),
   ("AMAZONIA-1",
    { interval_start := "2021-02-28T00:00:00Z"
      quicklook_extension := "png"
      quicklook_type := "png"
      instruments := ["WFI"]
      band := [("B1", { common_name := "blue" }), ("B2", { common_name := "green" }),
               ("B3", { common_name := "red" }), ("B4", { common_name := "nir" })]
      international_designator := "2021-015A"
      meta_band := [("WFI", 2)]
      provider_names := ["Instituto Nacional de Pesquisas Espaciais, INPE",
                         "AMS Kepler", "Amazon Web Services"] })]

structure CameraInfo : Type where
  gsd : List ℚ
  intl_designators : List String

def BASE_CAMERA : List (String × List (String × CameraInfo)) :=
  [("CBERS4",
    [("MUX", { gsd := [20], intl_designators := ["2014-079A"] }),
     ("AWFI", { gsd := [64], intl_designators := ["2014-079A"] }),
     ("PAN5M", { gsd := [5], intl_designators := ["2014-079A"] }),
     ("PAN10M", { gsd := [10], intl_designators := ["2014-079A"] })]),
   ("CBERS4A",
    [("MUX", { gsd := [(16.5 : ℚ)], intl_designators := ["2019-093E"] }),
     ("WFI", { gsd := [55], intl_designators := ["2019-093E"] }),
     ("WPM", { gsd := [2, 8], intl_designators := ["2019-093E"] })]),
   ("AMAZONIA1",
    [("WFI", { gsd := [64], intl_designators := ["2021-015A"] })])]

/-- COG_TYPE of the source, also the value of the pystac MediaType.COG
constant used for the dummy asset. -/
def COG_TYPE : String := "image/tiff; application=geotiff; profile=cloud-optimized"

/-- _build_collection_name: the mission number is already concatenated
with the satellite name when missing, and Python None and the empty
string are both falsy. -/
def _build_collection_name (satellite camera mission : String) : String :=
  if mission.isEmpty then satellite ++ "-" ++ camera
  else satellite ++ mission ++ "-" ++ camera

/-! ### The metadata extractor -/

/-- The fields read relative to the chosen root element, source lines
434 through 483: satellite identity, image header strings, the
imageData and boundingBox corners and the sun position.  Numeric
fields are parsed rationals, header fields stay strings exactly as in
the source dictionary. -/
structure RootFields : Type where
  mission : String
  number : String
  sensor : String
  collection : String
  path : String
  row : String
  processing_level : String
  vertical_pixel_size : String
  horizontal_pixel_size : String
  projection_name : String
  origin_latitude : String
  origin_longitude : String
  ul_lat : ℚ
  ul_lon : ℚ
  ur_lat : ℚ
  ur_lon : ℚ
  lr_lat : ℚ
  lr_lon : ℚ
  ll_lat : ℚ
  ll_lon : ℚ
  ct_lat : ℚ
  ct_lon : ℚ
  bb_ul_lat : ℚ
  bb_ul_lon : ℚ
  bb_ur_lat : ℚ
  bb_ur_lon : ℚ
  bb_lr_lat : ℚ
  bb_lr_lon : ℚ
  bb_ll_lat : ℚ
  bb_ll_lon : ℚ
  sun_elevation : ℚ
  sun_azimuth : ℚ

/-- Read the root-relative fields.  The source finds the satellite,
image, imageData, boundingBox and sunPosition elements once and then
their children; the path lookups here repeat the outer finds, which is
observationally identical because lookups are pure. -/
def readRootFields (root : XmlEl) : Except StacError RootFields := do
  let mission ← liftO (pathText root ["satellite", "name"]) (StacError.missingField "satellite/name")
  let number ← liftO (pathText root ["satellite", "number"]) (StacError.missingField "satellite/number")
  let sensor ← liftO (pathText root ["satellite", "instrument"]) (StacError.missingField "satellite/instrument")
  let collection := _build_collection_name mission sensor number
  let path ← liftO (pathText root ["image", "path"]) (StacError.missingField "image/path")
  let row ← liftO (pathText root ["image", "row"]) (StacError.missingField "image/row")
  let processing_level ← liftO (pathText root ["image", "level"]) (StacError.missingField "image/level")
  let vertical_pixel_size ← liftO (pathText root ["image", "verticalPixelSize"]) (StacError.missingField "image/verticalPixelSize")
  let horizontal_pixel_size ← liftO (pathText root ["image", "horizontalPixelSize"]) (StacError.missingField "image/horizontalPixelSize")
  let projection_name ← liftO (pathText root ["image", "projectionName"]) (StacError.missingField "image/projectionName")
  let origin_latitude ← liftO (pathText root ["image", "originLatitude"]) (StacError.missingField "image/originLatitude")
  let origin_longitude ← liftO (pathText root ["image", "originLongitude"]) (StacError.missingField "image/originLongitude")
  let ul_lat ← liftO (pathRat root ["image", "imageData", "UL", "latitude"]) (StacError.missingField "imageData/UL/latitude")
  let ul_lon ← liftO (pathRat root ["image", "imageData", "UL", "longitude"]) (StacError.missingField "imageData/UL/longitude")
  let ur_lat ← liftO (pathRat root ["image", "imageData", "UR", "latitude"]) (StacError.missingField "imageData/UR/latitude")
  let ur_lon ← liftO (pathRat root ["image", "imageData", "UR", "longitude"]) (StacError.missingField "imageData/UR/longitude")
  let lr_lat ← liftO (pathRat root ["image", "imageData", "LR", "latitude"]) (StacError.missingField "imageData/LR/latitude")
  let lr_lon ← liftO (pathRat root ["image", "imageData", "LR", "longitude"]) (StacError.missingField "imageData/LR/longitude")
  let ll_lat ← liftO (pathRat root ["image", "imageData", "LL", "latitude"]) (StacError.missingField "imageData/LL/latitude")
  let ll_lon ← liftO (pathRat root ["image", "imageData", "LL", "longitude"]) (StacError.missingField "imageData/LL/longitude")
  let ct_lat ← liftO (pathRat root ["image", "imageData", "CT", "latitude"]) (StacError.missingField "imageData/CT/latitude")
  let ct_lon ← liftO (pathRat root ["image", "imageData", "CT", "longitude"]) (StacError.missingField "imageData/CT/longitude")
  let bb_ul_lat ← liftO (pathRat root ["image", "boundingBox", "UL", "latitude"]) (StacError.missingField "boundingBox/UL/latitude")
  let bb_ul_lon ← liftO (pathRat root ["image", "boundingBox", "UL", "longitude"]) (StacError.missingField "boundingBox/UL/longitude")
  let bb_ur_lat ← liftO (pathRat root ["image", "boundingBox", "UR", "latitude"]) (StacError.missingField "boundingBox/UR/latitude")
  let bb_ur_lon ← liftO (pathRat root ["image", "boundingBox", "UR", "longitude"]) (StacError.missingField "boundingBox/UR/longitude")
  let bb_lr_lat ← liftO (pathRat root ["image", "boundingBox", "LR", "latitude"]) (StacError.missingField "boundingBox/LR/latitude")
  let bb_lr_lon ← liftO (pathRat root ["image", "boundingBox", "LR", "longitude"]) (StacError.missingField "boundingBox/LR/longitude")
  let bb_ll_lat ← liftO (pathRat root ["image", "boundingBox", "LL", "latitude"]) (StacError.missingField "boundingBox/LL/latitude")
  let bb_ll_lon ← liftO (pathRat root ["image", "boundingBox", "LL", "longitude"]) (StacError.missingField "boundingBox/LL/longitude")
  let sun_elevation ← liftO (pathRat root ["image", "sunPosition", "elevation"]) (StacError.missingField "sunPosition/elevation")
  let sun_azimuth ← liftO (pathRat root ["image", "sunPosition", "sunAzimuth"]) (StacError.missingField "sunPosition/sunAzimuth")
  pure { mission := mission, number := number, sensor := sensor, collection := collection,
         path := path, row := row, processing_level := processing_level,
         vertical_pixel_size := vertical_pixel_size, horizontal_pixel_size := horizontal_pixel_size,
         projection_name := projection_name, origin_latitude := origin_latitude,
         origin_longitude := origin_longitude,
         ul_lat := ul_lat, ul_lon := ul_lon, ur_lat := ur_lat, ur_lon := ur_lon,
         lr_lat := lr_lat, lr_lon := lr_lon, ll_lat := ll_lat, ll_lon := ll_lon,
         ct_lat := ct_lat, ct_lon := ct_lon,
         bb_ul_lat := bb_ul_lat, bb_ul_lon := bb_ul_lon, bb_ur_lat := bb_ur_lat,
         bb_ur_lon := bb_ur_lon, bb_lr_lat := bb_lr_lat, bb_lr_lon := bb_lr_lon,
         bb_ll_lat := bb_ll_lat, bb_ll_lon := bb_ll_lon,
         sun_elevation := sun_elevation, sun_azimuth := sun_azimuth }

/-- The values that the dual-camera merge block, source lines 485
through 558, reads from one camera subtree. -/
structure CamVals : Type where
  ur_lat : ℚ
  ur_lon : ℚ
  lr_lat : ℚ
  lr_lon : ℚ
  ct_lat : ℚ
  ct_lon : ℚ
  sun_elevation : ℚ
  sun_azimuth : ℚ
  bb_ll_lat : ℚ
  bb_ll_lon : ℚ
  bb_ur_lat : ℚ
  bb_ur_lon : ℚ

/-- Read the merge-block values from one camera subtree.  The source
reads the UR and LR corners only from the right camera; reading them
from the left as well is harmless because the same elements were
already required when the left camera served as the root. -/
def readCamVals (cam : XmlEl) : Except StacError CamVals := do
  let ur_lat ← liftO (pathRat cam ["image", "imageData", "UR", "latitude"]) (StacError.missingField "cam/UR/latitude")
  let ur_lon ← liftO (pathRat cam ["image", "imageData", "UR", "longitude"]) (StacError.missingField "cam/UR/longitude")
  let lr_lat ← liftO (pathRat cam ["image", "imageData", "LR", "latitude"]) (StacError.missingField "cam/LR/latitude")
  let lr_lon ← liftO (pathRat cam ["image", "imageData", "LR", "longitude"]) (StacError.missingField "cam/LR/longitude")
  let ct_lat ← liftO (pathRat cam ["image", "imageData", "CT", "latitude"]) (StacError.missingField "cam/CT/latitude")
  let ct_lon ← liftO (pathRat cam ["image", "imageData", "CT", "longitude"]) (StacError.missingField "cam/CT/longitude")
  let sun_elevation ← liftO (pathRat cam ["image", "sunPosition", "elevation"]) (StacError.missingField "cam/sun/elevation")
  let sun_azimuth ← liftO (pathRat cam ["image", "sunPosition", "sunAzimuth"]) (StacError.missingField "cam/sun/sunAzimuth")
  let bb_ll_lat ← liftO (pathRat cam ["image", "boundingBox", "LL", "latitude"]) (StacError.missingField "cam/bb/LL/latitude")
  let bb_ll_lon ← liftO (pathRat cam ["image", "boundingBox", "LL", "longitude"]) (StacError.missingField "cam/bb/LL/longitude")
  let bb_ur_lat ← liftO (pathRat cam ["image", "boundingBox", "UR", "latitude"]) (StacError.missingField "cam/bb/UR/latitude")
  let bb_ur_lon ← liftO (pathRat cam ["image", "boundingBox", "UR", "longitude"]) (StacError.missingField "cam/bb/UR/longitude")
  pure { ur_lat := ur_lat, ur_lon := ur_lon, lr_lat := lr_lat, lr_lon := lr_lon,
         ct_lat := ct_lat, ct_lon := ct_lon,
         sun_elevation := sun_elevation, sun_azimuth := sun_azimuth,
         bb_ll_lat := bb_ll_lat, bb_ll_lon := bb_ll_lon,
         bb_ur_lat := bb_ur_lat, bb_ur_lon := bb_ur_lon }

/-- The dual-camera field updates of source lines 489 through 558:
the footprint UR and LR corners are replaced by the right camera
values, the center point and sun angles by the arithmetic mean of the
two cameras (statistics.mean of a two-element list), and the bounding
box by the component-wise minimum of the LL corners and maximum of the
UR corners. -/
def mergeCams (f : RootFields) (l r : CamVals) : RootFields :=
  { f with
    ur_lat := r.ur_lat, ur_lon := r.ur_lon,
    lr_lat := r.lr_lat, lr_lon := r.lr_lon,
    ct_lat := (l.ct_lat + r.ct_lat) / 2,
    ct_lon := (l.ct_lon + r.ct_lon) / 2,
    sun_elevation := (l.sun_elevation + r.sun_elevation) / 2,
    sun_azimuth := (l.sun_azimuth + r.sun_azimuth) / 2,
    bb_ll_lat := min l.bb_ll_lat r.bb_ll_lat,
    bb_ll_lon := min l.bb_ll_lon r.bb_ll_lon,
    bb_ur_lat := max l.bb_ur_lat r.bb_ur_lat,
    bb_ur_lon := max l.bb_ur_lon r.bb_ur_lon }

/-- The flat metadata dictionary produced by the extractor.  The roll
and vz fields are options because the source only sets them when an
attitude or ephemeris record exists; the assembler fails on the
missing key exactly as CPython raises KeyError. -/
structure Metadata : Type where
  rf : RootFields
  optics : String
  roll : Option String
  vz : Option String
  bands : List String
  band_gains : List (String × Option String)
  acquisition_date : String
  acquisition_day : String
  no_level_id : String
  download_url : String
  sat_sensor : String
  sat_number : String
  meta_file : String

/-- The dual-camera merge step of source lines 485 through 558: when
the left camera is active, find both camera subtrees, read the values
the merge consumes from each and update the root fields; the single
camera case leaves the fields unchanged. -/
def mergeStep (doc : XmlEl) (f0 : RootFields) (dual : Bool) :
    Except StacError RootFields :=
  if dual then do
    let lc ← liftO (xfind doc "leftCamera") (StacError.missingField "leftCamera")
    let rc ← liftO (xfind doc "rightCamera") (StacError.missingField "rightCamera")
    let lv ← readCamVals lc
    let rv ← readCamVals rc
    pure (mergeCams f0 lv rv)
  else pure f0

/-- The roll of the first attitude record, none when the attitudes
element has no attitude children, mirroring the findall loop with an
immediate break of the source. -/
def firstRollOf (attitudes : XmlEl) : Except StacError (Option String) :=
  match attitudes.children.filter (fun c => c.tag == "attitude") with
  | [] => pure none
  | a :: _ => do
      let r ← liftO (pathText a ["roll"]) (StacError.missingField "attitude/roll")
      pure (some r)

/-- The vz component of the first ephemeris record, none when the
ephemerides element has no ephemeris children. -/
def firstVzOf (ephemerides : XmlEl) : Except StacError (Option String) :=
  match ephemerides.children.filter (fun c => c.tag == "ephemeris") with
  | [] => pure none
  | e :: _ => do
      let v ← liftO (pathText e ["vz"]) (StacError.missingField "ephemeris/vz")
      pure (some v)

/-- The body of _get_keys_from_cbers_am after the filename check and
the camera-branch decision: read the root-relative fields, apply the
dual-camera merge when dual holds, then the attitude, ephemeris,
band-list, viewing and derived fields of source lines 560 through
615. -/
def extractFields (path optics : String) (doc : XmlEl) (dual : Bool) :
    Except StacError Metadata := do
  let root := if dual then (xfind doc "leftCamera").getD doc else doc
  let f0 ← readRootFields root
  let f ← mergeStep doc f0 dual
  let image ← liftO (xfind root "image") (StacError.missingField "image")
  let attitudes ← liftO (xfind image "attitudes") (StacError.missingField "attitudes")
  let roll ← firstRollOf attitudes
  let ephemerides ← liftO (xfind image "ephemerides") (StacError.missingField "ephemerides")
  let vz ← firstVzOf ephemerides
  let availableBands ← liftO (xfind root "availableBands") (StacError.missingField "availableBands")
  let bandEls := availableBands.children.filter (fun c => c.tag == "band")
  let bands := bandEls.map XmlEl.text
  let band_gains := bandEls.map (fun b => (b.text, b.attrs.lookup "gain"))
  let center ← liftO (pathText root ["viewing", "center"]) (StacError.missingField "viewing/center")
  let acquisition_date := String.mk (replaceChar 'T' [' '] center.data)
  let acquisition_day := String.mk ((splitOnChar ' ' acquisition_date.data).headD [])
  let pInt ← liftO (parseInt f.path) (StacError.badNumber f.path)
  let rInt ← liftO (parseInt f.row) (StacError.badNumber f.row)
  let no_level_id := f.mission ++ "_" ++ f.number ++ "_" ++ f.sensor ++ "_"
      ++ String.mk (replaceChar '-' [] acquisition_day.data) ++ "_" ++ pad3 pInt ++ "_" ++ pad3 rInt
  let download_url := f.mission ++ f.number ++ "/" ++ f.sensor ++ "/"
      ++ pad3 pInt ++ "/" ++ pad3 rInt ++ "/" ++ subBandXml (basename path)
  pure { rf := f, optics := optics, roll := roll, vz := vz,
         bands := bands, band_gains := band_gains,
         acquisition_date := acquisition_date, acquisition_day := acquisition_day,
         no_level_id := no_level_id, download_url := download_url,
         sat_sensor := f.mission ++ f.number ++ "/" ++ f.sensor,
         sat_number := f.mission ++ "-" ++ f.number,
         meta_file := basename path }

/-- _get_keys_from_cbers_am: assert the filename pattern on the
basename before any XML content is consulted, then branch on the
truthiness of the leftCamera lookup. -/
def _get_keys_from_cbers_am (cb_am_metadata : String) (doc : XmlEl) :
    Except StacError Metadata :=
  match tifXmlRun (basename cb_am_metadata) with
  | none => Except.error StacError.badFilename
  | some capt =>
      let optics := capt.getD ""
      match xfind doc "leftCamera" with
      | some l =>
          if l.children.isEmpty then extractFields cb_am_metadata optics doc false
          else extractFields cb_am_metadata optics doc true
      | none => extractFields cb_am_metadata optics doc false

/-! ### The item assembler -/

structure StacAsset : Type where
  href : String
  media_type : String
  roles : List String
  title : String

structure ItemProperties : Type where
  title : String
  description : String
  platform : String
  instruments : List String
  gsd : ℚ
  sun_azimuth : ℚ
  sun_elevation : ℚ
  off_nadir : ℚ
  intl_designator : String
  orbit_state : String

/-- The record assembled by create_item: identifier, properties, the
closed footprint ring, the bounding box, the normalized timestamp
string with its parsed UTC offset (none for a naive datetime), the
projection-extension values and the asset list. -/
structure StacItem : Type where
  id : String
  properties : ItemProperties
  geometry : List (ℚ × ℚ)
  bbox : List ℚ
  datetime_str : String
  datetime_offset : Option Int
  epsg : Int
  proj_bbox : List Int
  shape : List Nat
  transform : List Int
  assets : List (String × StacAsset)

/-- create_item of the source: extract the metadata, build the
property set (gsd from BASE_CAMERA, designator from
CBERS_AM_MISSIONS, view and satellite extension values), the footprint
ring, the identifier and the bounding box, normalize the timestamp by
replacing the space and stripping fractional seconds, set the
projection-extension constants of the template (epsg 4326, world bbox,
unit shape and transform) and attach the single dummy COG asset whose
href is the input path. -/
def create_item (asset_href : String) (doc : XmlEl) : Except StacError StacItem := do
  let cbers_am ← _get_keys_from_cbers_am asset_href doc
  let sensors ← liftO (BASE_CAMERA.lookup (cbers_am.rf.mission ++ cbers_am.rf.number))
      (StacError.missingField "BASE_CAMERA mission")
  let cam ← liftO (sensors.lookup cbers_am.rf.sensor) (StacError.missingField "BASE_CAMERA sensor")
  let gsd ← liftO cam.gsd.head? (StacError.missingField "gsd")
  let missionInfo ← liftO (CBERS_AM_MISSIONS.lookup cbers_am.sat_number)
      (StacError.missingField "CBERS_AM_MISSIONS")
  let rollS ← liftO cbers_am.roll (StacError.missingField "roll")
  let rollV ← liftO (parseDecimal rollS) (StacError.badNumber rollS)
  let vzS ← liftO cbers_am.vz (StacError.missingField "vz")
  let vzV ← liftO (parseDecimal vzS) (StacError.badNumber vzS)
  let pInt ← liftO (parseInt cbers_am.rf.path) (StacError.badNumber cbers_am.rf.path)
  let rInt ← liftO (parseInt cbers_am.rf.row) (StacError.badNumber cbers_am.rf.row)
  let props : ItemProperties :=
    { title := "A dummy STAC Item"
      description := "Used for demonstration purposes"
      platform := lowerStr cbers_am.sat_number
      instruments := [cbers_am.rf.sensor]
      gsd := gsd
      sun_azimuth := cbers_am.rf.sun_azimuth
      sun_elevation := cbers_am.rf.sun_elevation
      off_nadir := |rollV|
      intl_designator := missionInfo.international_designator
      orbit_state := if vzV < 0 then "descending" else "ascending" }
  let geom : List (ℚ × ℚ) :=
    [(cbers_am.rf.ll_lon, cbers_am.rf.ll_lat), (cbers_am.rf.lr_lon, cbers_am.rf.lr_lat),
     (cbers_am.rf.ur_lon, cbers_am.rf.ur_lat), (cbers_am.rf.ul_lon, cbers_am.rf.ul_lat),
     (cbers_am.rf.ll_lon, cbers_am.rf.ll_lat)]
  let date_time := stripFraction (String.mk (replaceChar ' ' ['T'] cbers_am.acquisition_date.data))
  pure { id := cbers_am.rf.mission ++ "_" ++ cbers_am.rf.number ++ "_" ++ cbers_am.rf.sensor
             ++ "_" ++ String.mk (replaceChar '-' [] cbers_am.acquisition_day.data) ++ "_" ++ pad3 pInt
             ++ "_" ++ pad3 rInt ++ "_L" ++ cbers_am.rf.processing_level
         properties := props
         geometry := geom
         bbox := [cbers_am.rf.bb_ll_lon, cbers_am.rf.bb_ll_lat,
                  cbers_am.rf.bb_ur_lon, cbers_am.rf.bb_ur_lat]
         datetime_str := date_time
         datetime_offset := isoOffset date_time
         epsg := 4326
         proj_bbox := [-180, 90, 180, -90]
         shape := [1, 1]
         transform := [-180, 360, 0, 90, 0, 180]
         assets := [("image",
           { href := asset_href, media_type := COG_TYPE, roles := ["data"],
             title := "A dummy STAC Item COG" })] }

/-- Modelled from the spec: the UTM-zone-from-longitude formula and
the EPSG mapping of the projection section, present in the source only
inside the commented-out original implementation.  Northern hemisphere
maps to 32600 plus the zone, southern hemisphere to 32700 plus the
absolute zone; a negative center latitude negates the zone. -/
def epsg_from_spec (ct_lat ct_lon : ℚ) : Int :=
  let q : ℚ := (ct_lon + 180) / 6
  let zone : Int := Int.fdiv q.num q.den + 1
  let zone := if ct_lat < 0 then -zone else zone
  if zone < 0 then 32700 + (-zone) else 32600 + zone

/-- Bool-level check that a bounding box given as lower-left longitude
and latitude followed by upper-right longitude and latitude is ordered
component-wise. -/
def bboxOrderedB (it : StacItem) : Bool :=
  match it.bbox with
  | [llon, llat, ulon, ulat] => decide (llon ≤ ulon) && decide (llat ≤ ulat)
  | _ => false

/-- Bool-level well-formedness of the bounding box carried by one
camera subtree: the LL corner is below the UR corner in each axis
whenever both parse. -/
def bbWF (cam : XmlEl) : Bool :=
  (match pathRat cam ["image", "boundingBox", "LL", "latitude"],
         pathRat cam ["image", "boundingBox", "UR", "latitude"] with
   | some a, some b => decide (a ≤ b)
   | _, _ => true) &&
  (match pathRat cam ["image", "boundingBox", "LL", "longitude"],
         pathRat cam ["image", "boundingBox", "UR", "longitude"] with
   | some a, some b => decide (a ≤ b)
   | _, _ => true)

/-- The camera subtrees that feed the bounding box of the assembled
record: both camera elements in the dual case, the document itself
otherwise. -/
def mergeSources (doc : XmlEl) : List XmlEl :=
  if dualActive doc then
    (xfind doc "leftCamera").toList ++ (xfind doc "rightCamera").toList
  else [doc]

/-! ### Concrete test documents

Synthetic documents following the INPE metadata schema, used to
instantiate the theorems below on closed inputs.  Values are small
rationals; they are not the byte content of the repository fixture,
whose XML is not part of the sources, but they exercise the same code
paths. -/

/-- Leaf element with text. -/
def leaf (t x : String) : XmlEl := XmlEl.node t x [] []

/-- Element with children only. -/
def el (t : String) (cs : List XmlEl) : XmlEl := XmlEl.node t "" [] cs

/-- A corner element with latitude and longitude children. -/
def cornerEl (t lat lon : String) : XmlEl := el t [leaf "latitude" lat, leaf "longitude" lon]

/-- Parameters of one synthetic camera subtree, with defaults shared
by all fixtures. -/
structure CamSpec : Type where
  mission : String := "AMAZONIA"
  number : String := "1"
  instrument : String := "WFI"
  path : String := "036"
  row : String := "018"
  level : String := "4"
  projection : String := "UTM"
  ulLat : String := "5"
  ulLon : String := "-60"
  urLat : String := "5"
  urLon : String := "-55"
  lrLat : String := "-5"
  lrLon : String := "-54"
  llLat : String := "-5"
  llLon : String := "-59"
  ctLat : String := "-17"
  ctLon : String := "-54"
  bbULlat : String := "-13"
  bbULlon : String := "-58"
  bbURlat : String := "-14"
  bbURlon : String := "-50"
  bbLRlat : String := "-21"
  bbLRlon : String := "-50"
  bbLLlat : String := "-21"
  bbLLlon : String := "-58"
  sunElevation : String := "50"
  sunAzimuth : String := "36"
  roll : String := "1.5"
  vz : String := "-100.0"
  bands : List String := ["2"]
  viewingCenter : String := "2022-08-11T14:01:37.915410"

/-- Children of one camera subtree built from its parameters. -/
def camChildren (s : CamSpec) : List XmlEl :=
  [el "satellite" [leaf "name" s.mission, leaf "number" s.number, leaf "instrument" s.instrument],
   el "image"
     [leaf "path" s.path, leaf "row" s.row, leaf "level" s.level,
      leaf "verticalPixelSize" "64", leaf "horizontalPixelSize" "64",
      leaf "projectionName" s.projection,
      leaf "originLatitude" "0", leaf "originLongitude" "0",
      el "imageData"
        [cornerEl "UL" s.ulLat s.ulLon, cornerEl "UR" s.urLat s.urLon,
         cornerEl "LR" s.lrLat s.lrLon, cornerEl "LL" s.llLat s.llLon,
         cornerEl "CT" s.ctLat s.ctLon],
      el "boundingBox"
        [cornerEl "UL" s.bbULlat s.bbULlon, cornerEl "UR" s.bbURlat s.bbURlon,
         cornerEl "LR" s.bbLRlat s.bbLRlon, cornerEl "LL" s.bbLLlat s.bbLLlon],
      el "sunPosition" [leaf "elevation" s.sunElevation, leaf "sunAzimuth" s.sunAzimuth],
      el "attitudes" [el "attitude" [leaf "roll" s.roll]],
      el "ephemerides" [el "ephemeris" [leaf "vz" s.vz]]],
   el "availableBands" (s.bands.map (fun b => leaf "band" b)),
   el "viewing" [leaf "center" s.viewingCenter]]

/-- A single-camera document. -/
def singleDocOf (s : CamSpec) : XmlEl := el "prdf" (camChildren s)

/-- A dual-camera document with left and right subtrees. -/
def dualDocOf (l r : CamSpec) : XmlEl :=
  el "prdf" [el "leftCamera" (camChildren l), el "rightCamera" (camChildren r)]

/-- The basename used by most fixtures, matching the repository
fixture name. -/
def fixPath : String := "AMAZONIA_1_WFI_20220811_036_018_L4_BAND2.xml"

/-- A well-formed single-camera document. -/
def singleGoodDoc : XmlEl := singleDocOf {}

/-- The same document reporting a non-UTM projection. -/
def lambertDoc : XmlEl := singleDocOf { projection := "LAMBERT" }

/-- A single-camera document whose bounding-box LL corner lies above
and east of its UR corner. -/
def badBBDoc : XmlEl :=
  singleDocOf { bbLLlat := "10", bbLLlon := "20", bbURlat := "0", bbURlon := "0" }

/-- A document whose first ephemeris record has vertical velocity
zero. -/
def vz0Doc : XmlEl := singleDocOf { vz := "0.0" }

/-- A dual-camera document; the merged center is latitude -17,
longitude -53, in UTM zone 22 of the southern hemisphere. -/
def dualFixtureDoc : XmlEl :=
  dualDocOf
    { ctLat := "-17", ctLon := "-54", sunElevation := "50", sunAzimuth := "36",
      bbLLlat := "-21", bbLLlon := "-58", bbURlat := "-14", bbURlon := "-50" }
    { ctLat := "-17", ctLon := "-52", sunElevation := "52", sunAzimuth := "38",
      urLat := "6", urLon := "-49", lrLat := "-4", lrLon := "-48",
      bbLLlat := "-20", bbLLlon := "-52", bbURlat := "-13", bbURlon := "-48" }

/-- A document containing a leftCamera element with no children next
to ordinary root-level scene elements. -/
def childlessLeftDoc : XmlEl :=
  el "prdf" (el "leftCamera" [] :: camChildren {})

/-! ### Inversion lemmas for the Except pipeline -/

theorem bindE_ok {ε α β : Type} {x : Except ε α} {f : α → Except ε β} {b : β} :
    (x >>= f) = Except.ok b ↔ ∃ a, x = Except.ok a ∧ f a = Except.ok b := by
  cases x with
  | error e =>
      simp only [show ((Except.error e : Except ε α) >>= f) = Except.error e from rfl]
      simp
  | ok a =>
      simp only [show ((Except.ok a : Except ε α) >>= f) = f a from rfl]
      simp

theorem pureE_def {ε α : Type} (a : α) : (pure a : Except ε α) = Except.ok a := rfl

theorem liftO_ok {α : Type} {o : Option α} {e : StacError} {v : α} :
    liftO o e = Except.ok v ↔ o = some v := by
  cases o <;> simp [liftO]

/-- Every field of a successfully read RootFields that the theorems
below consult equals the corresponding lookup on the root element. -/
theorem readRootFields_spec {root : XmlEl} {f : RootFields}
    (h : readRootFields root = Except.ok f) :
    pathRat root ["image", "imageData", "UL", "latitude"] = some f.ul_lat ∧
    pathRat root ["image", "imageData", "UL", "longitude"] = some f.ul_lon ∧
    pathRat root ["image", "imageData", "LL", "latitude"] = some f.ll_lat ∧
    pathRat root ["image", "imageData", "LL", "longitude"] = some f.ll_lon ∧
    pathRat root ["image", "boundingBox", "LL", "latitude"] = some f.bb_ll_lat ∧
    pathRat root ["image", "boundingBox", "LL", "longitude"] = some f.bb_ll_lon ∧
    pathRat root ["image", "boundingBox", "UR", "latitude"] = some f.bb_ur_lat ∧
    pathRat root ["image", "boundingBox", "UR", "longitude"] = some f.bb_ur_lon ∧
    pathText root ["image", "projectionName"] = some f.projection_name := by
  simp only [readRootFields, bindE_ok, liftO_ok, pureE_def, Except.ok.injEq] at h
  obtain ⟨mi, hmi, nu, hnu, se, hse, pa, hpa, ro, hro, le, hle, vp, hvp, hp, hhp,
    pn, hpn, la, hla, lo, hlo,
    u1, h1, u2, h2, u3, h3, u4, h4, u5, h5, u6, h6, u7, h7, u8, h8, c1, hc1, c2, hc2,
    b1, hb1, b2, hb2, b3, hb3, b4, hb4, b5, hb5, b6, hb6, b7, hb7, b8, hb8,
    s1, hs1, s2, hs2, heq⟩ := h
  subst heq
  exact ⟨h1, h2, h7, h8, hb7, hb8, hb3, hb4, hpn⟩

/-- Every bounding-box field of a successfully read CamVals equals the
corresponding lookup on the camera subtree. -/
theorem readCamVals_spec {cam : XmlEl} {v : CamVals}
    (h : readCamVals cam = Except.ok v) :
    pathRat cam ["image", "boundingBox", "LL", "latitude"] = some v.bb_ll_lat ∧
    pathRat cam ["image", "boundingBox", "LL", "longitude"] = some v.bb_ll_lon ∧
    pathRat cam ["image", "boundingBox", "UR", "latitude"] = some v.bb_ur_lat ∧
    pathRat cam ["image", "boundingBox", "UR", "longitude"] = some v.bb_ur_lon := by
  simp only [readCamVals, bindE_ok, liftO_ok, pureE_def, Except.ok.injEq] at h
  obtain ⟨u1, h1, u2, h2, u3, h3, u4, h4, c1, hc1, c2, hc2, s1, hs1, s2, hs2,
    b1, hb1, b2, hb2, b3, hb3, b4, hb4, heq⟩ := h
  subst heq
  exact ⟨hb1, hb2, hb3, hb4⟩

theorem mergeStep_false {doc : XmlEl} {f0 : RootFields} :
    mergeStep doc f0 false = Except.ok f0 := rfl

/-- Inversion of the dual-camera merge step. -/
theorem mergeStep_true_inv {doc : XmlEl} {f0 f : RootFields}
    (h : mergeStep doc f0 true = Except.ok f) :
    ∃ lc rc lv rv,
      xfind doc "leftCamera" = some lc ∧
      xfind doc "rightCamera" = some rc ∧
      readCamVals lc = Except.ok lv ∧
      readCamVals rc = Except.ok rv ∧
      f = mergeCams f0 lv rv := by
  simp only [mergeStep, if_true, bindE_ok, liftO_ok, pureE_def, Except.ok.injEq] at h
  obtain ⟨lc, hlc, rc, hrc, lv, hlv, rv, hrv, hmerge⟩ := h
  exact ⟨lc, rc, lv, rv, hlc, hrc, hlv, hrv, hmerge.symm⟩

/-- Inversion of extractFields down to the root-field read and the
merge step; the trailing reads do not touch the rf component. -/
theorem extractFields_rf {path optics : String} {doc : XmlEl} {dual : Bool} {m : Metadata}
    (h : extractFields path optics doc dual = Except.ok m) :
    ∃ f0, readRootFields (if dual then (xfind doc "leftCamera").getD doc else doc) = Except.ok f0 ∧
      mergeStep doc f0 dual = Except.ok m.rf := by
  simp only [extractFields, bindE_ok, liftO_ok, pureE_def, Except.ok.injEq] at h
  obtain ⟨f0, hf0, f, hf, img, himg, att, hatt, rl, hrl, eph, heph, vz, hvz,
    ab, hab, ce, hce, pI, hpI, rI, hrI, heq⟩ := h
  subst heq
  exact ⟨f0, hf0, hf⟩

/-- Single-camera inversion of extractFields: the metadata fields are
exactly the root fields of the document root. -/
theorem extractFields_single {path optics : String} {doc : XmlEl} {m : Metadata}
    (h : extractFields path optics doc false = Except.ok m) :
    ∃ f0, readRootFields doc = Except.ok f0 ∧ m.rf = f0 := by
  obtain ⟨f0, hf0, hf⟩ := extractFields_rf h
  simp only [if_false, Bool.false_eq_true] at hf0
  rw [mergeStep_false, Except.ok.injEq] at hf
  exact ⟨f0, hf0, hf.symm⟩

/-- Dual-camera inversion of extractFields: the metadata fields are
the merge of the left-camera root fields with the two camera value
sets. -/
theorem extractFields_dual {path optics : String} {doc : XmlEl} {m : Metadata}
    (h : extractFields path optics doc true = Except.ok m) :
    ∃ lc rc f0 lv rv,
      xfind doc "leftCamera" = some lc ∧
      xfind doc "rightCamera" = some rc ∧
      readRootFields lc = Except.ok f0 ∧
      readCamVals lc = Except.ok lv ∧
      readCamVals rc = Except.ok rv ∧
      m.rf = mergeCams f0 lv rv := by
  obtain ⟨f0, hf0, hf⟩ := extractFields_rf h
  obtain ⟨lc, rc, lv, rv, hlc, hrc, hlv, hrv, hmerge⟩ := mergeStep_true_inv hf
  simp only [hlc, if_true, Option.getD_some] at hf0
  exact ⟨lc, rc, f0, lv, rv, hlc, hrc, hf0, hlv, hrv, hmerge⟩

/-- When the filename matches, the extractor is extractFields with the
camera branch decided by the Python truthiness of the leftCamera
lookup. -/
theorem getKeys_branch (path : String) (doc : XmlEl) (capt : Option String)
    (hm : tifXmlRun (basename path) = some capt) :
    _get_keys_from_cbers_am path doc =
      extractFields path (capt.getD "") doc (dualActive doc) := by
  simp only [_get_keys_from_cbers_am, hm]
  cases hl : xfind doc "leftCamera" with
  | none => simp [dualActive, hl]
  | some l =>
      cases hc : l.children.isEmpty <;> simp [dualActive, hl, hc]

/-- Inversion of a successful extraction into the filename capture and
the branch taken. -/
theorem getKeys_ok_inv {path : String} {doc : XmlEl} {m : Metadata}
    (h : _get_keys_from_cbers_am path doc = Except.ok m) :
    ∃ capt, tifXmlRun (basename path) = some capt ∧
      extractFields path (capt.getD "") doc (dualActive doc) = Except.ok m := by
  cases hm : tifXmlRun (basename path) with
  | none =>
      simp only [_get_keys_from_cbers_am, hm] at h
      exact absurd h (by simp)
  | some capt =>
      refine ⟨capt, rfl, ?_⟩
      rw [← getKeys_branch path doc capt hm]
      exact h

/-- Inversion of a successful item assembly into the extracted
metadata and the fields of the record consulted below. -/
theorem create_item_ok {path : String} {doc : XmlEl} {it : StacItem}
    (h : create_item path doc = Except.ok it) :
    ∃ m s v, _get_keys_from_cbers_am path doc = Except.ok m ∧
      m.vz = some s ∧ parseDecimal s = some v ∧
      it.properties.orbit_state = (if v < 0 then "descending" else "ascending") ∧
      it.bbox = [m.rf.bb_ll_lon, m.rf.bb_ll_lat, m.rf.bb_ur_lon, m.rf.bb_ur_lat] ∧
      it.epsg = 4326 := by
  simp only [create_item, bindE_ok, liftO_ok, pureE_def, Except.ok.injEq] at h
  obtain ⟨m, hm, sen, hsen, cam, hcam, g, hg, mi, hmi, rS, hrS, rV, hrV,
    vS, hvS, vV, hvV, pI, hpI, rI, hrI, heq⟩ := h
  subst heq
  exact ⟨m, vS, vV, hm, hvS, hvV, rfl, rfl, rfl⟩

/-- Turn the Bool bounding-box well-formedness into the latitude
inequality. -/
theorem bbWF_lat {cam : XmlEl} {a b : ℚ} (h : bbWF cam = true)
    (ha : pathRat cam ["image", "boundingBox", "LL", "latitude"] = some a)
    (hb : pathRat cam ["image", "boundingBox", "UR", "latitude"] = some b) : a ≤ b := by
  simp only [bbWF, ha, hb, Bool.and_eq_true, decide_eq_true_eq] at h
  exact h.1

/-- Turn the Bool bounding-box well-formedness into the longitude
inequality. -/
theorem bbWF_lon {cam : XmlEl} {a b : ℚ} (h : bbWF cam = true)
    (ha : pathRat cam ["image", "boundingBox", "LL", "longitude"] = some a)
    (hb : pathRat cam ["image", "boundingBox", "UR", "longitude"] = some b) : a ≤ b := by
  simp only [bbWF, ha, hb, Bool.and_eq_true, decide_eq_true_eq] at h
  exact h.2

/-! ### The claims -/

/-- Claim C1: for every input document with both camera subtrees, the
extracted fields satisfy the merge rule: the bounding-box lower-left
latitude and longitude are the minima of the two subtrees lower-left
bounding values, the upper-right values the maxima, the center point
and the sun elevation and azimuth the arithmetic means, and the
footprint upper-left and lower-left corners come from the left subtree
while the upper-right and lower-right corners come from the right
subtree. -/
theorem C1_merge_rule (path : String) (doc : XmlEl) (m : Metadata)
    (hx : _get_keys_from_cbers_am path doc = Except.ok m)
    (hd : dualActive doc = true) :
    ∃ lc rc lv rv,
      xfind doc "leftCamera" = some lc ∧
      xfind doc "rightCamera" = some rc ∧
      readCamVals lc = Except.ok lv ∧
      readCamVals rc = Except.ok rv ∧
      m.rf.bb_ll_lat = min lv.bb_ll_lat rv.bb_ll_lat ∧
      m.rf.bb_ll_lon = min lv.bb_ll_lon rv.bb_ll_lon ∧
      m.rf.bb_ur_lat = max lv.bb_ur_lat rv.bb_ur_lat ∧
      m.rf.bb_ur_lon = max lv.bb_ur_lon rv.bb_ur_lon ∧
      m.rf.ct_lat = (lv.ct_lat + rv.ct_lat) / 2 ∧
      m.rf.ct_lon = (lv.ct_lon + rv.ct_lon) / 2 ∧
      m.rf.sun_elevation = (lv.sun_elevation + rv.sun_elevation) / 2 ∧
      m.rf.sun_azimuth = (lv.sun_azimuth + rv.sun_azimuth) / 2 ∧
      m.rf.ur_lat = rv.ur_lat ∧ m.rf.ur_lon = rv.ur_lon ∧
      m.rf.lr_lat = rv.lr_lat ∧ m.rf.lr_lon = rv.lr_lon ∧
      pathRat lc ["image", "imageData", "UL", "latitude"] = some m.rf.ul_lat ∧
      pathRat lc ["image", "imageData", "UL", "longitude"] = some m.rf.ul_lon ∧
      pathRat lc ["image", "imageData", "LL", "latitude"] = some m.rf.ll_lat ∧
      pathRat lc ["image", "imageData", "LL", "longitude"] = some m.rf.ll_lon := by
  obtain ⟨capt, hcapt, hext⟩ := getKeys_ok_inv hx
  rw [hd] at hext
  obtain ⟨lc, rc, f0, lv, rv, hlc, hrc, hf0, hlv, hrv, hrf⟩ := extractFields_dual hext
  obtain ⟨hul1, hul2, hll1, hll2, _, _, _, _, _⟩ := readRootFields_spec hf0
  refine ⟨lc, rc, lv, rv, hlc, hrc, hlv, hrv, ?_, ?_, ?_, ?_, ?_, ?_, ?_, ?_, ?_, ?_, ?_, ?_,
    ?_, ?_, ?_, ?_⟩ <;>
    simp only [hrf, mergeCams] <;>
    first
      | rfl
      | exact hul1
      | exact hul2
      | exact hll1
      | exact hll2

/-- Witness for claim C1 at the concrete dual-camera document. -/
theorem C1_merge_rule_witness :
    ∃ m, _get_keys_from_cbers_am fixPath dualFixtureDoc = Except.ok m ∧
      dualActive dualFixtureDoc = true ∧
      (∃ lc rc lv rv,
        xfind dualFixtureDoc "leftCamera" = some lc ∧
        xfind dualFixtureDoc "rightCamera" = some rc ∧
        readCamVals lc = Except.ok lv ∧
        readCamVals rc = Except.ok rv ∧
        m.rf.bb_ll_lat = min lv.bb_ll_lat rv.bb_ll_lat ∧
        m.rf.bb_ll_lon = min lv.bb_ll_lon rv.bb_ll_lon ∧
        m.rf.bb_ur_lat = max lv.bb_ur_lat rv.bb_ur_lat ∧
        m.rf.bb_ur_lon = max lv.bb_ur_lon rv.bb_ur_lon ∧
        m.rf.ct_lat = (lv.ct_lat + rv.ct_lat) / 2 ∧
        m.rf.ct_lon = (lv.ct_lon + rv.ct_lon) / 2 ∧
        m.rf.sun_elevation = (lv.sun_elevation + rv.sun_elevation) / 2 ∧
        m.rf.sun_azimuth = (lv.sun_azimuth + rv.sun_azimuth) / 2 ∧
        m.rf.ur_lat = rv.ur_lat ∧ m.rf.ur_lon = rv.ur_lon ∧
        m.rf.lr_lat = rv.lr_lat ∧ m.rf.lr_lon = rv.lr_lon ∧
        pathRat lc ["image", "imageData", "UL", "latitude"] = some m.rf.ul_lat ∧
        pathRat lc ["image", "imageData", "UL", "longitude"] = some m.rf.ul_lon ∧
        pathRat lc ["image", "imageData", "LL", "latitude"] = some m.rf.ll_lat ∧
        pathRat lc ["image", "imageData", "LL", "longitude"] = some m.rf.ll_lon) :=
  ⟨_, rfl, rfl, C1_merge_rule fixPath dualFixtureDoc _ rfl rfl⟩

/-- Claim C2: contrary to the claim, the assembled record carries the
constant projection EPSG code 4326 of the template, not the UTM-derived
code: for a scene whose merged center is latitude -17 and longitude
-53, in UTM zone 22 of the southern hemisphere, the claim and the spec
require 32722, while create_item emits 4326. -/
theorem C2_epsg_hardcoded :
    (_get_keys_from_cbers_am fixPath dualFixtureDoc).toOption.map
      (fun m => (m.rf.ct_lat, m.rf.ct_lon)) = some ((-17 : ℚ), (-53 : ℚ)) ∧
    (create_item fixPath dualFixtureDoc).toOption.map (fun it => it.epsg) = some 4326 ∧
    epsg_from_spec (-17) (-53) = 32722 ∧
    (4326 : Int) ≠ 32722 :=
  ⟨rfl, rfl, rfl, by decide⟩

/-- Claim C3: contrary to the claim, a non-UTM projection name is not
rejected: the projection name is extracted but never checked, and
item assembly succeeds on a document reporting LAMBERT. -/
theorem C3_projection_not_checked :
    (_get_keys_from_cbers_am fixPath lambertDoc).toOption.map
      (fun m => m.rf.projection_name) = some "LAMBERT" ∧
    (create_item fixPath lambertDoc).toOption.isSome = true :=
  ⟨rfl, rfl⟩

/-- Claim C4: contrary to the claim, the assembled record carries a
single template asset named image whose href is the input path; the
extracted band list is nonempty, yet no per-band asset and no URL
ending in the band suffix is emitted. -/
theorem C4_single_dummy_asset :
    (_get_keys_from_cbers_am fixPath dualFixtureDoc).toOption.map Metadata.bands
      = some ["2"] ∧
    (create_item fixPath dualFixtureDoc).toOption.map (fun it => it.assets.map Prod.fst)
      = some ["image"] ∧
    (create_item fixPath dualFixtureDoc).toOption.map
      (fun it => it.assets.map (fun a => a.2.href)) = some [fixPath] ∧
    List.isPrefixOf "_BAND2.tif".data.reverse fixPath.data.reverse = false :=
  ⟨rfl, rfl, rfl, rfl⟩

/-- Claim C5: the fractional seconds are truncated as claimed, but
contrary to the claim no UTC offset is applied: the datetime string
handed to fromisoformat is naive, so the resulting timestamp carries
no offset, while the claimed form would carry offset zero. -/
theorem C5_naive_timestamp :
    (create_item fixPath dualFixtureDoc).toOption.map
      (fun it => (it.datetime_str, it.datetime_offset))
      = some ("2022-08-11T14:01:37", none) ∧
    isoOffset "2022-08-11T14:01:37+00:00" = some 0 :=
  ⟨rfl, rfl⟩

/-- Claim C6 counterexample: a single-camera document whose XML
bounding box has LL above UR is assembled without complaint and the
emitted bounding box violates the ordering. -/
theorem C6_bbox_counterexample :
    (create_item fixPath badBBDoc).toOption.map bboxOrderedB = some false := rfl

/-- Claim C6, amended: for every successfully assembled record whose
source camera subtrees each carry a component-wise ordered bounding
box, the emitted bounding box satisfies lower-left at most upper-right
in both components; the code enforces nothing for single-optics input,
where the box is copied from the XML as-is. -/
theorem C6_bbox_ordered_of_wf (path : String) (doc : XmlEl) (it : StacItem)
    (hx : create_item path doc = Except.ok it)
    (hwf : ∀ cam ∈ mergeSources doc, bbWF cam = true) :
    bboxOrderedB it = true := by
  obtain ⟨m, s, v, hm, _, _, _, hbbox, _⟩ := create_item_ok hx
  obtain ⟨capt, hcapt, hext⟩ := getKeys_ok_inv hm
  cases hdual : dualActive doc with
  | false =>
      rw [hdual] at hext
      obtain ⟨f0, hf0, hrf⟩ := extractFields_single hext
      obtain ⟨_, _, _, _, hbll1, hbll2, hbur1, hbur2, _⟩ := readRootFields_spec hf0
      have hmem : doc ∈ mergeSources doc := by
        simp [mergeSources, hdual]
      have hw := hwf doc hmem
      have hlat := bbWF_lat hw hbll1 hbur1
      have hlon := bbWF_lon hw hbll2 hbur2
      simp only [bboxOrderedB, hbbox, hrf, Bool.and_eq_true, decide_eq_true_eq]
      exact ⟨hlon, hlat⟩
  | true =>
      rw [hdual] at hext
      obtain ⟨lc, rc, f0, lv, rv, hlc, hrc, hf0, hlv, hrv, hrf⟩ := extractFields_dual hext
      obtain ⟨hl1, hl2, hl3, hl4⟩ := readCamVals_spec hlv
      have hmem : lc ∈ mergeSources doc := by
        simp [mergeSources, hdual, hlc, hrc]
      have hw := hwf lc hmem
      have hlat : lv.bb_ll_lat ≤ lv.bb_ur_lat := bbWF_lat hw hl1 hl3
      have hlon : lv.bb_ll_lon ≤ lv.bb_ur_lon := bbWF_lon hw hl2 hl4
      simp only [bboxOrderedB, hbbox, hrf, mergeCams, Bool.and_eq_true, decide_eq_true_eq]
      constructor
      · exact le_trans (min_le_left _ _) (le_trans hlon (le_max_left _ _))
      · exact le_trans (min_le_left _ _) (le_trans hlat (le_max_left _ _))

/-- Witness for the amended claim C6 at the concrete single-camera
document. -/
theorem C6_bbox_ordered_witness :
    ∃ it, create_item fixPath singleGoodDoc = Except.ok it ∧
      (∀ cam ∈ mergeSources singleGoodDoc, bbWF cam = true) ∧
      bboxOrderedB it = true :=
  ⟨_, rfl, by decide, C6_bbox_ordered_of_wf fixPath singleGoodDoc _ rfl (by decide)⟩

/-- Claim C7: for every path whose basename fails the filename
pattern, extraction fails with the malformed-input error regardless of
the XML document content, so no XML lookup is ever consulted and no
partial result is returned. -/
theorem C7_filename_guard (path : String) (doc : XmlEl)
    (h : tifXmlRun (basename path) = none) :
    _get_keys_from_cbers_am path doc = Except.error StacError.badFilename := by
  simp only [_get_keys_from_cbers_am, h]

/-- Witness for claim C7 at a concrete non-matching path. -/
theorem C7_filename_guard_witness :
    tifXmlRun (basename "bogus.txt") = none ∧
    _get_keys_from_cbers_am "bogus.txt" singleGoodDoc
      = Except.error StacError.badFilename :=
  ⟨rfl, C7_filename_guard "bogus.txt" singleGoodDoc rfl⟩

/-- Claim C8: for every successfully assembled record, the orbit state
is descending exactly when the extracted vertical velocity is
negative, and ascending otherwise, zero included. -/
theorem C8_orbit_state (path : String) (doc : XmlEl) (it : StacItem) (m : Metadata)
    (s : String) (v : ℚ)
    (hit : create_item path doc = Except.ok it)
    (hm : _get_keys_from_cbers_am path doc = Except.ok m)
    (hs : m.vz = some s) (hv : parseDecimal s = some v) :
    it.properties.orbit_state = if v < 0 then "descending" else "ascending" := by
  obtain ⟨m2, s2, v2, hm2, hs2, hv2, horb, _, _⟩ := create_item_ok hit
  have hmm := hm.symm.trans hm2
  rw [Except.ok.injEq] at hmm
  subst hmm
  have hss := hs.symm.trans hs2
  rw [Option.some.injEq] at hss
  subst hss
  have hvv := hv.symm.trans hv2
  rw [Option.some.injEq] at hvv
  subst hvv
  exact horb

/-- Witness for claim C8 at the concrete document whose first
ephemeris record has vertical velocity zero. -/
theorem C8_orbit_state_witness :
    ∃ it m, create_item fixPath vz0Doc = Except.ok it ∧
      _get_keys_from_cbers_am fixPath vz0Doc = Except.ok m ∧
      m.vz = some "0.0" ∧ parseDecimal "0.0" = some 0 ∧
      it.properties.orbit_state = "ascending" := by
  refine ⟨_, _, rfl, rfl, rfl, rfl, ?_⟩
  have h := C8_orbit_state fixPath vz0Doc _ _ "0.0" 0 rfl rfl rfl rfl
  simpa using h

/-- Claim C9: the camera branch is decided by Python truthiness, not
presence: whenever the filename matches, the extractor runs
extractFields with the dual flag given by dualActive, and dualActive
holds exactly when a leftCamera element is present and has at least
one child; in particular a childless leftCamera element selects the
single-camera branch, reading every field relative to the document
root. -/
theorem C9_truthiness_branch (path : String) (doc : XmlEl) (capt : Option String)
    (hm : tifXmlRun (basename path) = some capt) :
    _get_keys_from_cbers_am path doc
      = extractFields path (capt.getD "") doc (dualActive doc) ∧
    (dualActive doc = true ↔ ∃ l, xfind doc "leftCamera" = some l ∧ l.children ≠ []) := by
  refine ⟨getKeys_branch path doc capt hm, ?_⟩
  cases hl : xfind doc "leftCamera" with
  | none => simp [dualActive, hl]
  | some l =>
      simp only [dualActive, hl, Bool.not_eq_true']
      constructor
      · intro h
        refine ⟨l, rfl, ?_⟩
        intro hnil
        rw [hnil] at h
        simp at h
      · rintro ⟨l2, hl2, hne⟩
        rw [Option.some.injEq] at hl2
        subst hl2
        cases hc : l.children with
        | nil => exact absurd hc hne
        | cons a as => simp [hc]

/-- Witness for claim C9 at the concrete document whose leftCamera
element is present but childless: the single-camera branch is taken. -/
theorem C9_truthiness_branch_witness :
    tifXmlRun (basename fixPath) = some none ∧
    (_get_keys_from_cbers_am fixPath childlessLeftDoc
        = extractFields fixPath ((none : Option String).getD "") childlessLeftDoc
            (dualActive childlessLeftDoc) ∧
      (dualActive childlessLeftDoc = true ↔
        ∃ l, xfind childlessLeftDoc "leftCamera" = some l ∧ l.children ≠ [])) :=
  ⟨rfl, C9_truthiness_branch fixPath childlessLeftDoc none rfl⟩

/-- Claim C10: the filename check only requires the pattern to match a
prefix of the basename: a path with trailing characters after the xml
extension matches, and extraction proceeds to parse the document and
succeeds. -/
theorem C10_prefix_match :
    tifXmlRun (basename "AMAZONIA_1_WFI_20220811_036_018_L4_BAND2.xml.bak")
      = some none ∧
    (_get_keys_from_cbers_am "AMAZONIA_1_WFI_20220811_036_018_L4_BAND2.xml.bak"
        singleGoodDoc).toOption.isSome = true :=
  ⟨rfl, rfl⟩

end A1
